import Mathlib

/-!
Shallow embedding of the jeremychia GitHub-contribution-analytics repository,
together with theorems settling the frozen claims about it.

Modelling conventions used throughout this development:
* Python arbitrary-precision integers are `Int` (counts that are list lengths
  are `Nat`); Python floating-point arithmetic is modelled exactly over `ℚ`
  (every operation the code performs on these values — sums, division,
  `min`, `round(x, 2)` — is arithmetically exact at the small magnitudes
  involved, and the claims are about values/bounds, not representation);
* `datetime` values are modelled as integers (for the analyzer, at calendar-day
  granularity, which is the granularity its date logic uses);
* dictionaries obtained from JSON are structures with `Option`-typed fields
  (`None`/missing ⇒ `none`); `dict.get(k, d)` is `Option.getD`;
* subprocess/network calls are oracles passed as function arguments;
* fallible operations (Python code that can raise) return `Except`.
-/

/-- Round a rational to the nearest integer, ties to even — the rounding of
Python's built-in `round`. -/
def roundHalfEven (q : ℚ) : ℤ :=
  if q - ⌊q⌋ = 1 / 2 then (if ⌊q⌋ % 2 = 0 then ⌊q⌋ else ⌊q⌋ + 1) else round q

/-- Python's `round(x, 2)`: round at two decimal places, ties to even. -/
def pyRound2 (q : ℚ) : ℚ := (roundHalfEven (q * 100) : ℚ) / 100

theorem roundHalfEven_nonneg {q : ℚ} (h : 0 ≤ q) : 0 ≤ roundHalfEven q := by
  unfold roundHalfEven
  have hfl : (0 : ℤ) ≤ ⌊q⌋ := Int.floor_nonneg.mpr h
  split
  · split <;> omega
  · have : (0 : ℤ) ≤ ⌊q + 1 / 2⌋ := Int.floor_nonneg.mpr (by linarith)
    simpa [round_eq] using this

theorem roundHalfEven_le {q : ℚ} {n : ℤ} (h : q ≤ n) : roundHalfEven q ≤ n := by
  unfold roundHalfEven
  split
  · rename_i htie
    have hlt : ⌊q⌋ < n := by
      have h1 : (⌊q⌋ : ℚ) = q - 1 / 2 := by linarith
      have h2 : (⌊q⌋ : ℚ) < n := by
        rw [h1]; linarith
      exact_mod_cast h2
    split <;> omega
  · have hlt : ⌊q + 1 / 2⌋ < n + 1 := by
      rw [Int.floor_lt]
      push_cast
      linarith
    have : ⌊q + 1 / 2⌋ ≤ n := by omega
    simpa [round_eq] using this

theorem pyRound2_nonneg {q : ℚ} (h : 0 ≤ q) : 0 ≤ pyRound2 q := by
  unfold pyRound2
  have : (0 : ℤ) ≤ roundHalfEven (q * 100) := roundHalfEven_nonneg (by linarith)
  have hcast : (0 : ℚ) ≤ (roundHalfEven (q * 100) : ℚ) := by exact_mod_cast this
  linarith

theorem pyRound2_le {q : ℚ} {n : ℤ} (h : q ≤ n) : pyRound2 q ≤ n := by
  unfold pyRound2
  have : roundHalfEven (q * 100) ≤ n * 100 := roundHalfEven_le (by push_cast; linarith)
  have hcast : (roundHalfEven (q * 100) : ℚ) ≤ (n : ℚ) * 100 := by exact_mod_cast this
  linarith

namespace PrAnalyserPat

/-- `PRData` of `pr-analyser-pat/pr_analyser/models.py` (the spec notes both
PAT sub-variants share this data model). Timestamps are modelled as integers. -/
structure PRData where
  id : Int
  number : Int
  title : String
  description : String
  repository : String
  author : String
  state : String
  merged : Bool
  created_at : Int
  updated_at : Int
  merged_at : Option Int := none
  closed_at : Option Int := none
  source_branch : String
  target_branch : String
  additions : Int
  deletions : Int
  changed_files : Int
  comments_count : Int
  reviewers : List String
  labels : List String
deriving Repr, DecidableEq

/-- `PRData.total_changes`: additions + deletions. -/
def PRData.total_changes (pr : PRData) : Int := pr.additions + pr.deletions

/-- `PRData.status`: "merged" if the merged flag is set, else the raw state. -/
def PRData.status (pr : PRData) : String := if pr.merged then "merged" else pr.state

/-- `CommitData` of `pr-analyser-pat/pr_analyser/models.py`. `authored_date`
and `committed_date` are modelled at calendar-day granularity. -/
structure CommitData where
  sha : String
  message : String
  repository : String
  author : String
  author_email : String
  authored_date : Int
  committed_date : Int
  additions : Int
  deletions : Int
  total_changes : Int
  files_changed : List String
deriving Repr, DecidableEq

/-- `CommitData.short_sha`: first 7 characters of the SHA. -/
def CommitData.short_sha (c : CommitData) : String := c.sha.take 7

/-- `CommitData.short_message`: first line of the commit message. -/
def CommitData.short_message (c : CommitData) : String :=
  (c.message.splitOn "\n").headD ""

/-- The `date_range` dict of `AnalysisResult` (from/to, each optional). -/
structure DateRange where
  date_from : Option Int := none
  date_to : Option Int := none
deriving Repr, DecidableEq

/-- `AnalysisResult` of `pr-analyser-pat/pr_analyser/models.py`. -/
structure AnalysisResult where
  user : String
  organization : String
  analysis_date : Int
  date_range : DateRange
  total_prs : Int
  total_commits : Int
  repositories_contributed : Int
  pull_requests : List PRData
  commits : List CommitData
deriving Repr, DecidableEq

/-- `AnalysisResult.merged_prs`: number of PRs whose merged flag is set. -/
def AnalysisResult.merged_prs (r : AnalysisResult) : Nat :=
  r.pull_requests.countP (fun pr => pr.merged)

/-- `AnalysisResult.open_prs`: number of PRs with raw state "open". -/
def AnalysisResult.open_prs (r : AnalysisResult) : Nat :=
  r.pull_requests.countP (fun pr => pr.state == "open")

/-- `AnalysisResult.closed_prs`: number of PRs with raw state "closed" that
are not merged. -/
def AnalysisResult.closed_prs (r : AnalysisResult) : Nat :=
  r.pull_requests.countP (fun pr => pr.state == "closed" && !pr.merged)

/-- `AnalysisResult.total_lines_added`: sum of additions over all PRs. -/
def AnalysisResult.total_lines_added (r : AnalysisResult) : Int :=
  (r.pull_requests.map (·.additions)).sum

/-- `AnalysisResult.total_lines_deleted`: sum of deletions over all PRs. -/
def AnalysisResult.total_lines_deleted (r : AnalysisResult) : Int :=
  (r.pull_requests.map (·.deletions)).sum

/-- `AnalysisResult.total_files_changed`: sum of changed_files over all PRs. -/
def AnalysisResult.total_files_changed (r : AnalysisResult) : Int :=
  (r.pull_requests.map (·.changed_files)).sum

/-- `AnalysisResult.average_pr_size`: mean PR size in lines changed, 0.0 for
no PRs. -/
def AnalysisResult.average_pr_size (r : AnalysisResult) : ℚ :=
  if r.pull_requests = [] then 0
  else ((r.pull_requests.map (·.total_changes)).sum : ℚ) / r.pull_requests.length

end PrAnalyserPat

namespace PrAnalyser

open PrAnalyserPat

/-- `ContributionMetrics` of the shared PAT-variant data model
(`pr-analyser-pat/pr_analyser/models.py`). -/
structure ContributionMetrics where
  total_contributions : Nat
  prs_created : Nat
  prs_merged : Nat
  prs_closed : Nat
  commits_made : Nat
  lines_added : Int
  lines_deleted : Int
  files_modified : Int
  repositories_touched : Nat
  average_pr_size : ℚ
  merge_rate : ℚ
  most_active_repository : String
  contribution_streak : Nat
deriving Repr, DecidableEq

/-- The loop body of `DataAnalyzer._calculate_contribution_streak`
(`pr-analyser/pr_analyser/analyzer.py`): walk the distinct commit dates in
descending order; at each step the date is accepted exactly when
`current_date - commit_date == timedelta(days=streak)`, in which case the
streak grows and `current_date` moves to the accepted date. -/
def streakLoop : List Int → Nat → Int → Nat
  | [], streak, _ => streak
  | d :: rest, streak, current =>
    if current - d = (streak : Int) then streakLoop rest (streak + 1) d else streak

/-- `DataAnalyzer._calculate_contribution_streak`: 0 for no commits, else run
the loop over the distinct authored dates sorted descending, starting from
`today` (`datetime.now().date()`, passed here as a parameter). -/
def calculate_contribution_streak (today : Int) (authoredDates : List Int) : Nat :=
  if authoredDates = [] then 0
  else
    let commit_dates := authoredDates.dedup.insertionSort (fun a b => b ≤ a)
    if commit_dates = [] then 0 else streakLoop commit_dates 0 today

/-- `collections.Counter(...).most_common(1)` specialised to picking one
element: fold over the counter's keys (first-occurrence order), keeping the
element whose count is highest, earlier keys winning ties. -/
def counterPick (cnt : String → Nat) : Option String → List String → Option String
  | best, [] => best
  | none, r :: rest => counterPick cnt (some r) rest
  | some b, r :: rest => counterPick cnt (some (if cnt b < cnt r then r else b)) rest

/-- `Counter(l).most_common(1)[0][0]` when the counter is non-empty: the
first-encountered element of `l` with the highest multiplicity. -/
def mostCommon1 (l : List String) : Option String :=
  counterPick (fun r => l.count r) none l.dedup

/-- The `all_repos` local of `calculate_contribution_metrics`:
`list(pr_repos) + list(commit_repos)`, where `pr_repos` and `commit_repos`
are the *sets* of repository names of the two projections (each distinct name
listed once per projection). -/
def all_repos (prs : List PRData) (commits : List CommitData) : List String :=
  (prs.map (·.repository)).dedup ++ (commits.map (·.repository)).dedup

/-- `DataAnalyzer.calculate_contribution_metrics`
(`pr-analyser/pr_analyser/analyzer.py`). The PR/commit dataframes are the two
lists; `today` stands for `datetime.now().date()` used by the streak. -/
def calculate_contribution_metrics (today : Int) (prs : List PRData)
    (commits : List CommitData) : ContributionMetrics :=
  if prs.isEmpty && commits.isEmpty then
    { total_contributions := 0, prs_created := 0, prs_merged := 0, prs_closed := 0,
      commits_made := 0, lines_added := 0, lines_deleted := 0, files_modified := 0,
      repositories_touched := 0, average_pr_size := 0, merge_rate := 0,
      most_active_repository := "", contribution_streak := 0 }
  else
    let prs_created := prs.length
    let prs_merged := prs.countP (fun pr => pr.status == "merged")
    let prs_closed := prs.countP (fun pr => pr.status == "closed")
    let commits_made := commits.length
    let pr_lines_added := (prs.map (·.additions)).sum
    let pr_lines_deleted := (prs.map (·.deletions)).sum
    let pr_files_modified := (prs.map (·.changed_files)).sum
    let commit_lines_added := (commits.map (·.additions)).sum
    let commit_lines_deleted := (commits.map (·.deletions)).sum
    let commit_files_modified := (commits.map (fun c => (c.files_changed.length : Int))).sum
    let lines_added := max pr_lines_added commit_lines_added
    let lines_deleted := max pr_lines_deleted commit_lines_deleted
    let files_modified := max pr_files_modified commit_files_modified
    let repositories_touched :=
      ((prs.map (·.repository)) ++ (commits.map (·.repository))).dedup.length
    let average_pr_size :=
      if prs.isEmpty then (0 : ℚ)
      else ((prs.map (·.total_changes)).sum : ℚ) / prs.length
    let merge_rate :=
      if 0 < prs_created then ((prs_merged : ℚ) / (prs_created : ℚ)) * 100 else (0 : ℚ)
    let most_active_repository := (mostCommon1 (all_repos prs commits)).getD ""
    let contribution_streak :=
      calculate_contribution_streak today (commits.map (·.authored_date))
    { total_contributions := prs_created + commits_made,
      prs_created := prs_created,
      prs_merged := prs_merged,
      prs_closed := prs_closed,
      commits_made := commits_made,
      lines_added := lines_added,
      lines_deleted := lines_deleted,
      files_modified := files_modified,
      repositories_touched := repositories_touched,
      average_pr_size := pyRound2 average_pr_size,
      merge_rate := pyRound2 merge_rate,
      most_active_repository := most_active_repository,
      contribution_streak := contribution_streak }

theorem counterPick_spec (cnt : String → Nat) :
    ∀ (keys : List String) (b : String),
      ∃ m, counterPick cnt (some b) keys = some m ∧ (m = b ∨ m ∈ keys) ∧
        cnt b ≤ cnt m ∧ ∀ s ∈ keys, cnt s ≤ cnt m := by
  intro keys
  induction keys with
  | nil => exact fun b => ⟨b, rfl, Or.inl rfl, le_refl _, by simp⟩
  | cons r rest ih =>
    intro b
    obtain ⟨m, hm, hmem, hle, hall⟩ := ih (if cnt b < cnt r then r else b)
    have hb : cnt b ≤ cnt m := by
      refine le_trans ?_ hle
      split <;> omega
    have hr : cnt r ≤ cnt m := by
      refine le_trans ?_ hle
      split <;> omega
    refine ⟨m, hm, ?_, hb, ?_⟩
    · rcases hmem with hmb | hmr
      · split at hmb
        · exact Or.inr (hmb ▸ List.mem_cons_self r rest)
        · exact Or.inl hmb
      · exact Or.inr (List.mem_cons_of_mem r hmr)
    · intro s hs
      rcases List.mem_cons.mp hs with hsr | hsrest
      · exact hsr ▸ hr
      · exact hall s hsrest

theorem mostCommon1_maximal (l : List String) (hl : l ≠ []) :
    ∃ m, mostCommon1 l = some m ∧ m ∈ l ∧ ∀ s ∈ l, l.count s ≤ l.count m := by
  have hd : l.dedup ≠ [] := by simpa [List.dedup_eq_nil] using hl
  obtain ⟨k, ks, hk⟩ := List.exists_cons_of_ne_nil hd
  obtain ⟨m, hm, hmem, hkle, hall⟩ := counterPick_spec (fun r => l.count r) ks k
  refine ⟨m, ?_, ?_, ?_⟩
  · unfold mostCommon1
    rw [hk]
    exact hm
  · apply List.mem_dedup.mp
    rw [hk]
    rcases hmem with h | h
    · exact h ▸ List.mem_cons_self k ks
    · exact List.mem_cons_of_mem k h
  · intro s hs
    have hsd : s ∈ l.dedup := List.mem_dedup.mpr hs
    rw [hk] at hsd
    rcases List.mem_cons.mp hsd with h | h
    · subst h
      exact hkle
    · exact hall s h

/-- Test fixture: a PR living in the named repository (other fields inert). -/
def mkPR (n : Int) (repo : String) : PRData :=
  { id := n, number := n, title := "t", description := "", repository := repo,
    author := "dev", state := "closed", merged := true, created_at := 0,
    updated_at := 0, source_branch := "feature", target_branch := "main",
    additions := 1, deletions := 1, changed_files := 1, comments_count := 0,
    reviewers := [], labels := [] }

/-- Test fixture: a commit living in the named repository, authored on day `d`. -/
def mkCommit (d : Int) (repo : String) : CommitData :=
  { sha := "abc123def456", message := "m", repository := repo, author := "dev",
    author_email := "dev@example.com", authored_date := d, committed_date := d,
    additions := 120, deletions := 15, total_changes := 135,
    files_changed := ["a.py", "b.py", "c.py"] }

/-- Test fixture: the spec's example PR — additions 150, deletions 25,
changed_files 5, merged. -/
def prExample : PRData :=
  { id := 1, number := 1, title := "Add feature", description := "",
    repository := "test-repo", author := "dev", state := "closed", merged := true,
    created_at := 0, updated_at := 0, merged_at := some 0, closed_at := some 0,
    source_branch := "feature", target_branch := "main", additions := 150,
    deletions := 25, changed_files := 5, comments_count := 0, reviewers := [],
    labels := [] }

/-- C1: with commits authored on the three consecutive calendar days 8, 9, 10
and "today" = day 10, `calculate_contribution_metrics` returns
`contribution_streak = 2`, not 3: after the first two steps the loop compares
each day gap against the grown streak counter instead of against one day.
The last conjunct shows the gap pattern 10, 9, 7 (days that are *not*
consecutive) is counted as a streak of 3. -/
theorem contribution_streak_consecutive_days_bug :
    (calculate_contribution_metrics 10 []
        [mkCommit 8 "r", mkCommit 9 "r", mkCommit 10 "r"]).contribution_streak = 2
    ∧ ([mkCommit 8 "r", mkCommit 9 "r", mkCommit 10 "r"].map
        (·.authored_date)).dedup = [8, 9, 10]
    ∧ (calculate_contribution_metrics 10 []
        [mkCommit 7 "r", mkCommit 9 "r", mkCommit 10 "r"]).contribution_streak = 3 := by
  refine ⟨by decide, by decide, by decide⟩

/-- C2 (amended): `most_active_repository` is a repository name of one of the
two projections with the *highest membership count across the two projected
repository sets* — 2 when the repository has both a PR and a commit, 1 when it
appears in only one projection; PR/commit row multiplicities beyond the first
are ignored, because the counter is built over `list(pr_repos) +
list(commit_repos)` where both operands are sets of names. -/
theorem most_active_repository_projection_set_count (today : Int)
    (prs : List PRData) (commits : List CommitData)
    (h : prs ≠ [] ∨ commits ≠ []) :
    (calculate_contribution_metrics today prs commits).most_active_repository
        ∈ all_repos prs commits
    ∧ (∀ s ∈ all_repos prs commits,
        (all_repos prs commits).count s
          ≤ (all_repos prs commits).count
              ((calculate_contribution_metrics today prs commits).most_active_repository))
    ∧ ∀ s : String, (all_repos prs commits).count s
        = (if s ∈ prs.map (·.repository) then 1 else 0)
          + (if s ∈ commits.map (·.repository) then 1 else 0) := by
  have hcond : (prs.isEmpty && commits.isEmpty) = false := by
    rcases h with h | h <;> simp [List.isEmpty_iff, h]
  have hne : all_repos prs commits ≠ [] := by
    unfold all_repos
    intro hh
    rcases List.append_eq_nil.mp hh with ⟨h1, h2⟩
    rw [List.dedup_eq_nil, List.map_eq_nil_iff] at h1 h2
    rcases h with h | h
    · exact h h1
    · exact h h2
  obtain ⟨m, hm, hmem, hmax⟩ := mostCommon1_maximal (all_repos prs commits) hne
  have hproj : (calculate_contribution_metrics today prs commits).most_active_repository
      = m := by
    simp [calculate_contribution_metrics, hcond, hm]
  rw [hproj]
  refine ⟨hmem, hmax, ?_⟩
  intro s
  unfold all_repos
  rw [List.count_append, List.count_dedup, List.count_dedup]

/-- C2 (counterexample): repository "a" has 3 PR rows and no commits,
repository "b" has 1 PR row and 1 commit row; the combined row counts are
a: 3, b: 2, yet the code reports "b" as most active (its projection-set
count is 2 against 1 for "a"). -/
theorem most_active_repository_row_count_counterexample :
    (calculate_contribution_metrics 0
        [mkPR 1 "a", mkPR 2 "a", mkPR 3 "a", mkPR 4 "b"]
        [mkCommit 0 "b"]).most_active_repository = "b"
    ∧ (([mkPR 1 "a", mkPR 2 "a", mkPR 3 "a", mkPR 4 "b"].map (·.repository))
        ++ ([mkCommit 0 "b"].map (·.repository))).count "a" = 3
    ∧ (([mkPR 1 "a", mkPR 2 "a", mkPR 3 "a", mkPR 4 "b"].map (·.repository))
        ++ ([mkCommit 0 "b"].map (·.repository))).count "b" = 2 := by
  refine ⟨by decide, by decide, by decide⟩

/-- C2 witness: the amended theorem applied to one PR in "solo-repo". -/
theorem most_active_repository_projection_set_count_witness :
    (calculate_contribution_metrics 0 [mkPR 1 "solo-repo"] []).most_active_repository
      ∈ all_repos [mkPR 1 "solo-repo"] [] := by
  exact (most_active_repository_projection_set_count 0 [mkPR 1 "solo-repo"] []
    (Or.inl (by simp))).1

/-- C5: for a non-empty analysis result, `lines_added`, `lines_deleted` and
`files_modified` are each the maximum of the PR-side column sum and the
commit-side column sum (an empty side summing to 0); `int(...)` truncation is
the identity on these integer sums. -/
theorem lines_files_metrics_are_max_of_sources (today : Int) (prs : List PRData)
    (commits : List CommitData) (h : prs ≠ [] ∨ commits ≠ []) :
    (calculate_contribution_metrics today prs commits).lines_added
        = max ((prs.map (·.additions)).sum) ((commits.map (·.additions)).sum)
    ∧ (calculate_contribution_metrics today prs commits).lines_deleted
        = max ((prs.map (·.deletions)).sum) ((commits.map (·.deletions)).sum)
    ∧ (calculate_contribution_metrics today prs commits).files_modified
        = max ((prs.map (·.changed_files)).sum)
            ((commits.map (fun c => (c.files_changed.length : Int))).sum) := by
  have hcond : (prs.isEmpty && commits.isEmpty) = false := by
    rcases h with h | h <;> simp [List.isEmpty_iff, h]
  refine ⟨?_, ?_, ?_⟩ <;> simp [calculate_contribution_metrics, hcond]

/-- C5 witness: the spec's own example — one PR (additions 150, deletions 25,
changed_files 5) and one commit (additions 120, deletions 15, 3 changed file
names) yield 150 / 25 / 5. -/
theorem lines_files_metrics_are_max_of_sources_witness :
    (calculate_contribution_metrics 0 [prExample] [mkCommit 0 "test-repo"]).lines_added = 150
    ∧ (calculate_contribution_metrics 0 [prExample] [mkCommit 0 "test-repo"]).lines_deleted = 25
    ∧ (calculate_contribution_metrics 0 [prExample] [mkCommit 0 "test-repo"]).files_modified = 5 := by
  obtain ⟨h1, h2, h3⟩ := lines_files_metrics_are_max_of_sources 0 [prExample]
    [mkCommit 0 "test-repo"] (Or.inl (by simp))
  rw [h1, h2, h3]
  refine ⟨by decide, by decide, by decide⟩

end PrAnalyser

namespace PrAnalyserPat

theorem countP_merged_add_countP_closed (l : List PRData) :
    l.countP (fun pr => pr.merged)
      + l.countP (fun pr => pr.state == "closed" && !pr.merged)
    = (l.filter (fun pr => pr.merged || pr.state == "closed")).length := by
  induction l with
  | nil => simp
  | cons pr rest ih =>
    simp only [List.countP_cons, List.filter_cons]
    cases hm : pr.merged <;> cases hs : pr.state == "closed" <;>
      simp [hm, hs, ih] <;> omega

/-- C7: a PR is never counted in both `merged_prs` (merged flag set) and
`closed_prs` (raw state "closed" and merged flag unset): their sum is the
number of PRs that are merged or have raw state "closed", so it never
exceeds the number of PRs. -/
theorem merged_and_closed_prs_mutually_exclusive (r : AnalysisResult) :
    r.merged_prs + r.closed_prs
        = (r.pull_requests.filter
            (fun pr => pr.merged || pr.state == "closed")).length
    ∧ r.merged_prs + r.closed_prs ≤ r.pull_requests.length := by
  constructor
  · exact countP_merged_add_countP_closed r.pull_requests
  · rw [AnalysisResult.merged_prs, AnalysisResult.closed_prs,
      countP_merged_add_countP_closed r.pull_requests]
    exact List.length_filter_le _ _

theorem merged_open_closed_countP_master (l : List PRData)
    (h : ∀ pr ∈ l, pr.state = "open" ∨ pr.state = "closed") :
    l.countP (fun pr => pr.merged) + l.countP (fun pr => pr.state == "open")
      + l.countP (fun pr => pr.state == "closed" && !pr.merged)
    = l.length + l.countP (fun pr => pr.merged && pr.state == "open") := by
  induction l with
  | nil => simp
  | cons pr rest ih =>
    have hrest := ih (fun q hq => h q (List.mem_cons_of_mem pr hq))
    have hpr := h pr (List.mem_cons_self pr rest)
    simp only [List.countP_cons, List.length_cons]
    rcases hpr with hs | hs <;> cases hm : pr.merged <;>
      simp [hs, hm, hrest] <;> omega

/-- C10: `open_prs` counts raw state "open" regardless of the merged flag;
when some merged PR has raw state "open" the three counts sum to more than
the number of PRs (that PR is counted in both `merged_prs` and `open_prs`),
and — over the documented state domain (open or closed) — the three counts
partition the PR list exactly when every merged PR has raw state "closed". -/
theorem open_prs_double_counts_merged_open (r : AnalysisResult)
    (h : ∀ pr ∈ r.pull_requests, pr.state = "open" ∨ pr.state = "closed") :
    r.open_prs = r.pull_requests.countP (fun pr => pr.state == "open")
    ∧ ((∃ pr ∈ r.pull_requests, pr.merged = true ∧ pr.state = "open")
        → r.pull_requests.length < r.merged_prs + r.open_prs + r.closed_prs)
    ∧ (r.merged_prs + r.open_prs + r.closed_prs = r.pull_requests.length
        ↔ ∀ pr ∈ r.pull_requests, pr.merged = true → pr.state = "closed") := by
  have master := merged_open_closed_countP_master r.pull_requests h
  rw [AnalysisResult.merged_prs, AnalysisResult.open_prs, AnalysisResult.closed_prs]
  refine ⟨rfl, ?_, ?_⟩
  · rintro ⟨pr, hpr, hm, hs⟩
    have hpos : 0 < r.pull_requests.countP (fun pr => pr.merged && pr.state == "open") :=
      List.countP_pos_iff.mpr ⟨pr, hpr, by simp [hm, hs]⟩
    omega
  · constructor
    · intro heq
      have hzero : r.pull_requests.countP
          (fun pr => pr.merged && pr.state == "open") = 0 := by omega
      intro pr hpr hm
      have hnot := List.countP_eq_zero.mp hzero pr hpr
      rcases h pr hpr with hs | hs
      · exact absurd (by simp [hm, hs]) hnot
      · exact hs
    · intro hall
      have hzero : r.pull_requests.countP
          (fun pr => pr.merged && pr.state == "open") = 0 := by
        refine List.countP_eq_zero.mpr ?_
        intro pr hpr hb
        simp only [Bool.and_eq_true, beq_iff_eq] at hb
        have := hall pr hpr hb.1
        rw [this] at hb
        exact absurd hb.2 (by decide)
      omega

/-- Test fixture: an analysis result holding one merged PR whose raw state is
"open". -/
def openMergedResult : AnalysisResult :=
  { user := "dev", organization := "org", analysis_date := 0, date_range := {},
    total_prs := 1, total_commits := 0, repositories_contributed := 1,
    pull_requests :=
      [{ id := 1, number := 1, title := "t", description := "",
         repository := "repo-x", author := "dev", state := "open", merged := true,
         created_at := 0, updated_at := 0, source_branch := "feature",
         target_branch := "main", additions := 1, deletions := 1,
         changed_files := 1, comments_count := 0, reviewers := [], labels := [] }],
    commits := [] }

/-- C10 witness: for one merged PR with raw state "open" the three counts sum
to 2 > 1. -/
theorem open_prs_double_counts_merged_open_witness :
    openMergedResult.pull_requests.length
      < openMergedResult.merged_prs + openMergedResult.open_prs
        + openMergedResult.closed_prs := by
  exact (open_prs_double_counts_merged_open openMergedResult (by decide)).2.1 (by decide)

end PrAnalyserPat

namespace GhScraper

/-- `ReviewMetrics` of `github-pr-scraper/github_pr_scraper/models.py`. -/
structure ReviewMetrics where
  total_reviewers : Int := 0
  unique_reviewers : List String := []
  review_comments_count : Int := 0
  approvals_count : Int := 0
  changes_requested_count : Int := 0
  review_cycles : Int := 0
  time_to_first_review_hours : Option ℚ := none
  average_review_response_time_hours : Option ℚ := none
deriving Repr, DecidableEq

/-- `TimeMetrics` of `github-pr-scraper/github_pr_scraper/models.py`. -/
structure TimeMetrics where
  time_open_hours : Option ℚ := none
  time_to_merge_hours : Option ℚ := none
  time_in_draft_hours : Option ℚ := none
  time_from_last_commit_to_merge_hours : Option ℚ := none
  business_days_open : Option Int := none
deriving Repr, DecidableEq

/-- `FileAnalysis` of `github-pr-scraper/github_pr_scraper/models.py`; the
string→count maps are association lists, the raw "largest file changes"
payload entries are kept opaque. -/
structure FileAnalysis where
  total_files_changed : Int := 0
  file_types : List (String × Int) := []
  programming_languages : List (String × Int) := []
  largest_file_changes : List String := []
  binary_files_count : Int := 0
  test_files_count : Int := 0
  documentation_files_count : Int := 0
deriving Repr, DecidableEq

/-- `EngagementMetrics` of `github-pr-scraper/github_pr_scraper/models.py`. -/
structure EngagementMetrics where
  reactions : List (String × Int) := []
  discussion_participants : List String := []
  total_discussion_comments : Int := 0
  mentioned_users : List String := []
  cross_references : List String := []
deriving Repr, DecidableEq

/-- `GitHubPRData` of `github-pr-scraper/github_pr_scraper/models.py`;
timestamps are integers, the free-form deployment/CI maps are association
lists of strings. -/
structure GitHubPRData where
  repository : String
  pr_number : Int
  title : String
  description : String := ""
  url : String
  author : String
  author_avatar_url : String := ""
  state : String
  is_draft : Bool := false
  created_at : Int
  updated_at : Option Int := none
  merged_at : Option Int := none
  closed_at : Option Int := none
  source_branch : String
  target_branch : String
  source_repository : String := ""
  additions : Int := 0
  deletions : Int := 0
  commits_count : Int := 0
  labels : List String := []
  milestone : Option String := none
  linked_issues : List String := []
  review_metrics : ReviewMetrics := {}
  time_metrics : TimeMetrics := {}
  file_analysis : FileAnalysis := {}
  engagement_metrics : EngagementMetrics := {}
  is_security_fix : Bool := false
  is_breaking_change : Bool := false
  deployment_info : List (String × String) := []
  ci_status : List (String × String) := []
deriving Repr, DecidableEq

/-- `GitHubPRData.net_lines_changed`: additions − deletions. -/
def GitHubPRData.net_lines_changed (pr : GitHubPRData) : Int :=
  pr.additions - pr.deletions

/-- `GitHubPRData.total_lines_changed`: additions + deletions. -/
def GitHubPRData.total_lines_changed (pr : GitHubPRData) : Int :=
  pr.additions + pr.deletions

/-- `GitHubPRData.status`: "merged" when state is "closed" with a merge
timestamp, "closed" when state is "closed" without one, else "open". -/
def GitHubPRData.status (pr : GitHubPRData) : String :=
  if pr.state = "closed" ∧ pr.merged_at.isSome then "merged"
  else if pr.state = "closed" then "closed"
  else "open"

/-- `GitHubPRData.complexity_score`: four independently capped terms; the
time term is added only when `time_open_hours` is truthy (set and non-zero);
the sum is rounded to 2 decimal places. -/
def GitHubPRData.complexity_score (pr : GitHubPRData) : ℚ :=
  let score : ℚ := 0
  let score := score + min ((pr.file_analysis.total_files_changed : ℚ) * (1 / 2)) 10
  let score := score + min ((pr.total_lines_changed : ℚ) * (1 / 100)) 20
  let score := score + min ((pr.review_metrics.review_cycles : ℚ) * 2) 10
  let score :=
    match pr.time_metrics.time_open_hours with
    | some t => if t = 0 then score else score + min (t * (1 / 10)) 15
    | none => score
  pyRound2 score

/-- `ScrapingResult` of `github-pr-scraper/github_pr_scraper/models.py`. -/
structure ScrapingResult where
  prs : List GitHubPRData
  total_processed : Int
  successful_scrapes : Int
  failed_scrapes : Int
  errors : List String := []
  processing_time_seconds : ℚ
deriving Repr, DecidableEq

/-- `ScrapingResult.success_rate`: `successful/total × 100`, guarded to 0.0
when `total_processed` is 0. -/
def ScrapingResult.success_rate (r : ScrapingResult) : ℚ :=
  if r.total_processed = 0 then 0
  else ((r.successful_scrapes : ℚ) / (r.total_processed : ℚ)) * 100

end GhScraper

namespace GhScraper

/-- C6 (amended): for every `GitHubPRData` — unconditionally —
`complexity_score` equals the claim's four-term capped formula (at
`time_open_hours = 0` the code's truthiness guard and the claim's term agree,
both contributing 0); and whenever the PR's change counts, review cycles and
open-time are non-negative, the score lies between 0 and 55 inclusive. -/
theorem complexity_score_capped_formula_and_bounds (pr : GitHubPRData) :
    pr.complexity_score
        = pyRound2 (min ((pr.file_analysis.total_files_changed : ℚ) * (1 / 2)) 10
            + min ((pr.total_lines_changed : ℚ) * (1 / 100)) 20
            + min ((pr.review_metrics.review_cycles : ℚ) * 2) 10
            + (match pr.time_metrics.time_open_hours with
                | some t => min (t * (1 / 10)) 15
                | none => 0))
    ∧ (0 ≤ pr.file_analysis.total_files_changed → 0 ≤ pr.additions →
        0 ≤ pr.deletions → 0 ≤ pr.review_metrics.review_cycles →
        (∀ t, pr.time_metrics.time_open_hours = some t → 0 ≤ t) →
        0 ≤ pr.complexity_score ∧ pr.complexity_score ≤ 55) := by
  have hformula : pr.complexity_score
      = pyRound2 (min ((pr.file_analysis.total_files_changed : ℚ) * (1 / 2)) 10
          + min ((pr.total_lines_changed : ℚ) * (1 / 100)) 20
          + min ((pr.review_metrics.review_cycles : ℚ) * 2) 10
          + (match pr.time_metrics.time_open_hours with
              | some t => min (t * (1 / 10)) 15
              | none => 0)) := by
    unfold GitHubPRData.complexity_score
    cases hto : pr.time_metrics.time_open_hours with
    | none => norm_num
    | some t =>
      by_cases h0 : t = 0
      · subst h0
        norm_num
      · simp only [h0, if_false, zero_add]
  refine ⟨hformula, ?_⟩
  intro hf ha hd hc ht
  have hq0 : (0 : ℚ) ≤ min ((pr.file_analysis.total_files_changed : ℚ) * (1 / 2)) 10
      + min ((pr.total_lines_changed : ℚ) * (1 / 100)) 20
      + min ((pr.review_metrics.review_cycles : ℚ) * 2) 10
      + (match pr.time_metrics.time_open_hours with
          | some t => min (t * (1 / 10)) 15
          | none => 0) := by
    have c1 : (0 : ℚ) ≤ min ((pr.file_analysis.total_files_changed : ℚ) * (1 / 2)) 10 :=
      le_min (by positivity) (by norm_num)
    have c2 : (0 : ℚ) ≤ min ((pr.total_lines_changed : ℚ) * (1 / 100)) 20 := by
      refine le_min ?_ (by norm_num)
      have hsum : (0 : ℤ) ≤ pr.total_lines_changed := by
        rw [GitHubPRData.total_lines_changed]
        omega
      have : (0 : ℚ) ≤ (pr.total_lines_changed : ℚ) := by exact_mod_cast hsum
      linarith
    have c3 : (0 : ℚ) ≤ min ((pr.review_metrics.review_cycles : ℚ) * 2) 10 := by
      refine le_min ?_ (by norm_num)
      have : (0 : ℚ) ≤ (pr.review_metrics.review_cycles : ℚ) := by exact_mod_cast hc
      linarith
    have c4 : (0 : ℚ) ≤ (match pr.time_metrics.time_open_hours with
        | some t => min (t * (1 / 10)) 15
        | none => 0) := by
      cases hto : pr.time_metrics.time_open_hours with
      | none => norm_num
      | some t =>
        have := ht t hto
        exact le_min (by linarith) (by norm_num)
    linarith
  have hq55 : min ((pr.file_analysis.total_files_changed : ℚ) * (1 / 2)) 10
      + min ((pr.total_lines_changed : ℚ) * (1 / 100)) 20
      + min ((pr.review_metrics.review_cycles : ℚ) * 2) 10
      + (match pr.time_metrics.time_open_hours with
          | some t => min (t * (1 / 10)) 15
          | none => 0) ≤ ((55 : ℤ) : ℚ) := by
    have c1 := min_le_right ((pr.file_analysis.total_files_changed : ℚ) * (1 / 2)) 10
    have c2 := min_le_right ((pr.total_lines_changed : ℚ) * (1 / 100)) 20
    have c3 := min_le_right ((pr.review_metrics.review_cycles : ℚ) * 2) 10
    have c4 : (match pr.time_metrics.time_open_hours with
        | some t => min (t * (1 / 10)) 15
        | none => 0) ≤ (15 : ℚ) := by
      cases pr.time_metrics.time_open_hours with
      | none => norm_num
      | some t => exact le_trans (min_le_right _ _) (by norm_num)
    push_cast
    linarith
  refine ⟨?_, ?_⟩
  · rw [hformula]
    exact pyRound2_nonneg hq0
  · rw [hformula]
    exact le_trans (pyRound2_le hq55) (by norm_num)

/-- Test fixture: a `GitHubPRData` whose `file_analysis.total_files_changed`
is the (type-correct but senseless) value −100; every other numeric field is
zero. -/
def negativeFilesPR : GitHubPRData :=
  { repository := "r", pr_number := 1, title := "t", url := "u", author := "a",
    state := "open", created_at := 0, source_branch := "s", target_branch := "m",
    file_analysis := { total_files_changed := -100 } }

/-- C6 (counterexample): `total_files_changed = -100` (all other inputs zero)
drives `complexity_score` to −50, outside the claimed 0..55 range — the caps
bound each term only from above, and the model does not constrain the counts
to be non-negative. -/
theorem complexity_score_below_zero_counterexample :
    negativeFilesPR.complexity_score = -50 ∧ negativeFilesPR.complexity_score < 0 := by
  have h : negativeFilesPR.complexity_score = -50 := by
    simp only [negativeFilesPR, GitHubPRData.complexity_score,
      GitHubPRData.total_lines_changed]
    norm_num [pyRound2, roundHalfEven, round_eq]
  exact ⟨h, by rw [h]; norm_num⟩

/-- Test fixture: a PR with files 5, additions 150, deletions 25, one review
cycle and 10 hours open. -/
def typicalPR : GitHubPRData :=
  { repository := "r", pr_number := 2, title := "t", url := "u", author := "a",
    state := "closed", created_at := 0, source_branch := "s", target_branch := "m",
    additions := 150, deletions := 25,
    review_metrics := { review_cycles := 1 },
    time_metrics := { time_open_hours := some 10 },
    file_analysis := { total_files_changed := 5 } }

/-- C6 witness: the amended bounds at a concrete well-formed PR. -/
theorem complexity_score_capped_formula_and_bounds_witness :
    0 ≤ typicalPR.complexity_score ∧ typicalPR.complexity_score ≤ 55 := by
  have h := (complexity_score_capped_formula_and_bounds typicalPR).2 (by decide)
    (by decide) (by decide) (by decide) ?_
  · exact h
  · intro t ht
    have h10 : typicalPR.time_metrics.time_open_hours = some (10 : ℚ) := rfl
    rw [h10, Option.some_inj] at ht
    rw [← ht]
    norm_num

/-- C9: `success_rate` is 0 when `total_processed` is 0, and otherwise is
exactly `successful_scrapes / total_processed × 100` (stated multiplied out,
so the divisor is visibly non-zero). -/
theorem success_rate_division_guarded (r : ScrapingResult) :
    (r.total_processed = 0 → r.success_rate = 0)
    ∧ (r.total_processed ≠ 0 →
        r.success_rate * (r.total_processed : ℚ) = (r.successful_scrapes : ℚ) * 100) := by
  constructor
  · intro h
    simp [ScrapingResult.success_rate, h]
  · intro h
    have hz : (r.total_processed : ℚ) ≠ 0 := Int.cast_ne_zero.mpr h
    rw [ScrapingResult.success_rate, if_neg h]
    field_simp

/-- Test fixture: a scraping result with nothing processed. -/
def emptyScrape : ScrapingResult :=
  { prs := [], total_processed := 0, successful_scrapes := 0, failed_scrapes := 0,
    processing_time_seconds := 0 }

/-- Test fixture: 4 processed, 3 successful. -/
def fourScrape : ScrapingResult :=
  { prs := [], total_processed := 4, successful_scrapes := 3, failed_scrapes := 1,
    processing_time_seconds := 0 }

/-- C9 witness: the spec's two examples — 0 processed gives rate 0 (no
division by zero), 3 of 4 gives 75.0. -/
theorem success_rate_division_guarded_witness :
    emptyScrape.success_rate = 0 ∧ fourScrape.success_rate = 75 := by
  constructor
  · exact (success_rate_division_guarded emptyScrape).1 rfl
  · have h := (success_rate_division_guarded fourScrape).2 (by decide)
    have e1 : fourScrape.total_processed = 4 := rfl
    have e2 : fourScrape.successful_scrapes = 3 := rfl
    rw [e1, e2] at h
    push_cast at h
    linarith

end GhScraper

namespace CliAnalyzer

open GhScraper

/-- A pull-request entry of the JSON the GitHub CLI prints, with the requested
field set of `_get_prs_for_repo` (`github-pr-scraper/github_pr_scraper/
cli_analyzer.py`); absent JSON keys are `none`, timestamps arrive already
parsed as integers (the CLI emits well-formed ISO timestamps and
`_convert_to_pr_data` skips entries whose parse raises). -/
structure RawPR where
  number : Int
  title : Option String := none
  body : Option String := none
  createdAt : Int
  updatedAt : Option Int := none
  mergedAt : Option Int := none
  closedAt : Option Int := none
  additions : Option Int := none
  deletions : Option Int := none
  url : Option String := none
  headRefName : Option String := none
  baseRefName : Option String := none
  labels : Option (List String) := none
  state : Option String := none
  repository : Option String := none
deriving Repr, DecidableEq

/-- Python's `a or b` on an optional string: `b` when `a` is absent or empty
(falsy), else `a`. -/
def pyOrStr (a : Option String) (b : String) : String :=
  match a with
  | some s => if s = "" then b else s
  | none => b

/-- `GitHubCLIAnalyzer._calculate_time_metrics`: `time_open_hours` from the
merge-or-close end time when one exists, `time_to_merge_hours` additionally
when merged. -/
def calculate_time_metrics (created_at : Int) (merged_at closed_at : Option Int) :
    TimeMetrics :=
  match (match merged_at with | some m => some m | none => closed_at) with
  | none => {}
  | some endTime =>
    { time_open_hours := some (((endTime - created_at : Int) : ℚ) / 3600),
      time_to_merge_hours :=
        match merged_at with
        | some m => some (((m - created_at : Int) : ℚ) / 3600)
        | none => none }

/-- `GitHubCLIAnalyzer._convert_to_pr_data`: GitHub CLI JSON →
`GitHubPRData`; `repo` overrides the per-entry repository when truthy, labels
default to an empty list, the state is lower-cased with default "open". -/
def convert_to_pr_data (prs_data : List RawPR) (username : String)
    (repo : Option String) : List GitHubPRData :=
  prs_data.map (fun pr =>
    { repository := pyOrStr repo (pr.repository.getD "unknown/unknown"),
      pr_number := pr.number,
      title := pr.title.getD "",
      description := pr.body.getD "",
      url := pr.url.getD "",
      author := username,
      state := (pr.state.getD "open").toLower,
      created_at := pr.createdAt,
      updated_at := pr.updatedAt,
      merged_at := pr.mergedAt,
      closed_at := pr.closedAt,
      source_branch := pr.headRefName.getD "",
      target_branch := pr.baseRefName.getD "",
      additions := pr.additions.getD 0,
      deletions := pr.deletions.getD 0,
      labels := pr.labels.getD [],
      review_metrics := {},
      time_metrics := calculate_time_metrics pr.createdAt pr.mergedAt pr.closedAt,
      file_analysis := {},
      engagement_metrics := {} })

/-- `GitHubCLIAnalyzer._filter_prs_by_date`: keep PRs created inside the
optional bounds. -/
def filter_prs_by_date (prs : List GitHubPRData) (date_from date_to : Option Int) :
    List GitHubPRData :=
  prs.filter (fun pr =>
    !(match date_from with | some d => decide (pr.created_at < d) | none => false)
    && !(match date_to with | some d => decide (d < pr.created_at) | none => false))

/-- The state loop of `GitHubCLIAnalyzer._get_prs_for_repo`: try each state's
CLI fetch in order; a failed fetch (non-zero exit, `none` here) is logged and
skipped, the first successful one is converted, optionally date-filtered, and
returned immediately. The second component records the states whose fetch was
actually executed, in order. -/
def tryStates (fetch : String → Option (List RawPR)) (repo username : String)
    (date_from date_to : Option Int) :
    List String → List GitHubPRData × List String
  | [] => ([], [])
  | state :: rest =>
    match fetch state with
    | none =>
      let r := tryStates fetch repo username date_from date_to rest
      (r.1, state :: r.2)
    | some prs_data =>
      let repo_prs := convert_to_pr_data prs_data username (some repo)
      let result :=
        if date_from.isSome || date_to.isSome then
          filter_prs_by_date repo_prs date_from date_to
        else repo_prs
      (result, [state])

/-- `GitHubCLIAnalyzer._get_prs_for_repo`: build the candidate state list
`[closed?, merged?, "open"]` and run the state loop; `fetch` stands for the
`gh pr list … --state <state>` subprocess (`none` = non-zero exit). -/
def get_prs_for_repo (fetch : String → Option (List RawPR)) (repo username : String)
    (date_from date_to : Option Int) (include_closed include_merged : Bool) :
    List GitHubPRData × List String :=
  let states := (if include_closed then ["closed"] else [])
    ++ (if include_merged then ["merged"] else []) ++ ["open"]
  tryStates fetch repo username date_from date_to states

/-- C3: when `include_closed` and `include_merged` are both true and the
"closed"-state fetch succeeds, `_get_prs_for_repo` returns exactly the
converted (and, when a date range is given, date-filtered) results of the
"closed"-state fetch, and "closed" is the only state whose fetch is executed
("merged" and "open" are never reached). -/
theorem closed_state_short_circuits (fetch : String → Option (List RawPR))
    (repo username : String) (date_from date_to : Option Int) (data : List RawPR)
    (h : fetch "closed" = some data) :
    get_prs_for_repo fetch repo username date_from date_to true true
      = ((if date_from.isSome || date_to.isSome then
            filter_prs_by_date (convert_to_pr_data data username (some repo))
              date_from date_to
          else convert_to_pr_data data username (some repo)), ["closed"]) := by
  simp [get_prs_for_repo, tryStates, h]

/-- C3 witness: a fetch oracle that succeeds (with an empty batch) only for
"closed" produces the empty conversion and an execution log of just
["closed"]. -/
theorem closed_state_short_circuits_witness :
    get_prs_for_repo (fun s => if s = "closed" then some [] else none)
        "octo/widgets" "alice" none none true true = ([], ["closed"]) := by
  rw [closed_state_short_circuits (fun s => if s = "closed" then some [] else none)
    "octo/widgets" "alice" none none [] (by simp)]
  simp [convert_to_pr_data]

end CliAnalyzer

namespace EnhanceScript

/-- Strip a literal prefix from a character list: `some` of the remainder
when the list starts with the prefix, else `none`. (Used to run the literal
parts of the script's regular expression.) -/
def stripPfx : List Char → List Char → Option (List Char)
  | [], rest => some rest
  | _ :: _, [] => none
  | p :: ps, c :: cs => if c = p then stripPfx ps cs else none

/-- Split a character list at its first '/': `some (before, after)` when a
'/' occurs, else `none`. (Runs a `([^/]+)/` group of the regular expression,
whose capture can never cross a '/'.) -/
def splitSlash : List Char → Option (List Char × List Char)
  | [] => none
  | c :: cs =>
    if c = '/' then some ([], cs)
    else (splitSlash cs).map (fun p => (c :: p.1, p.2))

/-- The literal head of the script's regular expression. -/
def githubPfx : List Char := "https://github.com/".toList

/-- The literal segment between the repo group and the PR number. -/
def pullSeg : List Char := "pull/".toList

/-- `extract_repo_from_url` (`github-pr-scraper/enhance_pr_data.py`): run
`re.match(r'https://github\.com/([^/]+)/([^/]+)/pull/\d+', url)` — `re.match`
anchors at the start only, so after at least one digit anything may follow —
and return `owner ++ "/" ++ repo` on a match. -/
def extract_repo_from_url (url : List Char) : Option (List Char) :=
  match stripPfx githubPfx url with
  | none => none
  | some r0 =>
    match splitSlash r0 with
    | none => none
    | some (owner, r1) =>
      if owner = [] then none
      else
        match splitSlash r1 with
        | none => none
        | some (repo, r2) =>
          if repo = [] then none
          else
            match stripPfx pullSeg r2 with
            | none => none
            | some r3 =>
              match r3 with
              | [] => none
              | c :: _ => if c.isDigit then some (owner ++ '/' :: repo) else none

/-- Follows the claim's words, for comparison with the code: the url has
*exactly* the shape `https://github.com/<owner>/<repo>/pull/<digits>` — one
or more digits and nothing after them. -/
def claimExactShape (url : List Char) : Bool :=
  match stripPfx githubPfx url with
  | none => false
  | some r0 =>
    match splitSlash r0 with
    | none => false
    | some (owner, r1) =>
      if owner = [] then false
      else
        match splitSlash r1 with
        | none => false
        | some (repo, r2) =>
          if repo = [] then false
          else
            match stripPfx pullSeg r2 with
            | none => false
            | some r3 => !r3.isEmpty && r3.all Char.isDigit

theorem stripPfx_sound :
    ∀ {p s t : List Char}, stripPfx p s = some t → s = p ++ t := by
  intro p
  induction p with
  | nil =>
    intro s t h
    simp [stripPfx] at h
    simp [h]
  | cons a ps ih =>
    intro s t h
    cases s with
    | nil => simp [stripPfx] at h
    | cons c cs =>
      simp only [stripPfx] at h
      split at h
      · rename_i hc
        subst hc
        simp [ih h]
      · exact absurd h (by simp)

theorem stripPfx_complete (p t : List Char) : stripPfx p (p ++ t) = some t := by
  induction p with
  | nil => simp [stripPfx]
  | cons a ps ih => simp [stripPfx, ih]

theorem splitSlash_sound :
    ∀ {s : List Char} {a b : List Char},
      splitSlash s = some (a, b) → s = a ++ '/' :: b ∧ '/' ∉ a := by
  intro s
  induction s with
  | nil => intro a b h; simp [splitSlash] at h
  | cons c cs ih =>
    intro a b h
    simp only [splitSlash] at h
    split at h
    · rename_i hc
      subst hc
      simp only [Option.some_inj, Prod.mk.injEq] at h
      obtain ⟨ha, hb⟩ := h
      subst ha
      subst hb
      simp
    · rename_i hc
      rcases hsplit : splitSlash cs with _ | ⟨a0, b0⟩
      · rw [hsplit] at h
        simp at h
      · rw [hsplit] at h
        have h2 : c :: a0 = a ∧ b0 = b := by simpa using h
        obtain ⟨ha, hb⟩ := h2
        subst hb
        subst ha
        obtain ⟨hcs, hnot⟩ := ih hsplit
        constructor
        · rw [List.cons_append, ← hcs]
        · intro hmem
          rcases List.mem_cons.mp hmem with h | h
          · exact hc h.symm
          · exact hnot h

theorem splitSlash_cons_ne (c : Char) (l : List Char) (hc : ¬c = '/') :
    splitSlash (c :: l) = (splitSlash l).map (fun p => (c :: p.1, p.2)) := by
  simp [splitSlash, hc]

theorem splitSlash_complete (a b : List Char) (ha : '/' ∉ a) :
    splitSlash (a ++ '/' :: b) = some (a, b) := by
  induction a with
  | nil => simp [splitSlash]
  | cons c cs ih =>
    have hc : ¬c = '/' := fun h => ha (h ▸ List.mem_cons_self c cs)
    have hcs : '/' ∉ cs := fun h => ha (List.mem_cons_of_mem c h)
    rw [List.cons_append, splitSlash_cons_ne c _ hc, ih hcs]
    rfl

/-- C4 (amended): `extract_repo_from_url` returns `owner/repo` exactly when
the url *begins with* `https://github.com/<owner>/<repo>/pull/<digit>`
(owner and repo non-empty and slash-free, at least one digit) — arbitrary
trailing content after the first digit is accepted, because `re.match`
anchors at the start of the string only; every other url yields `none`. -/
theorem extract_repo_from_url_characterization (url r : List Char) :
    extract_repo_from_url url = some r ↔
      ∃ owner repo c rest, owner ≠ [] ∧ repo ≠ [] ∧ '/' ∉ owner ∧ '/' ∉ repo ∧
        c.isDigit = true ∧
        url = githubPfx ++ (owner ++ '/' :: (repo ++ '/' :: (pullSeg ++ c :: rest))) ∧
        r = owner ++ '/' :: repo := by
  constructor
  · intro h
    unfold extract_repo_from_url at h
    split at h
    · exact absurd h (by simp)
    · rename_i r0 h0
      split at h
      · exact absurd h (by simp)
      · rename_i owner r1 h1
        split at h
        · exact absurd h (by simp)
        · rename_i howner
          split at h
          · exact absurd h (by simp)
          · rename_i repo r2 h2
            split at h
            · exact absurd h (by simp)
            · rename_i hrepo
              split at h
              · exact absurd h (by simp)
              · rename_i r3 h3
                split at h
                · exact absurd h (by simp)
                · rename_i c rest3
                  split at h
                  all_goals simp at h
                  rename_i hdigit
                  obtain ⟨hr0, hn0⟩ := splitSlash_sound h1
                  obtain ⟨hr1, hn1⟩ := splitSlash_sound h2
                  refine ⟨owner, repo, c, rest3, howner, hrepo, hn0, hn1, hdigit,
                    ?_, h.symm⟩
                  rw [stripPfx_sound h0, hr0, hr1, stripPfx_sound h3]
  · rintro ⟨owner, repo, c, rest, howner, hrepo, hn0, hn1, hdigit, hurl, hr⟩
    subst hurl
    subst hr
    simp only [extract_repo_from_url, stripPfx_complete,
      splitSlash_complete owner _ hn0, splitSlash_complete repo _ hn1,
      if_neg howner, if_neg hrepo, hdigit, if_true]

/-- C4 (counterexample): the url
`https://github.com/acme/widgets/pull/7200/files` does not have the claim's
exact shape (content trails the digits), yet `extract_repo_from_url` returns
`"acme/widgets"` rather than `none`. -/
theorem extract_repo_trailing_content_counterexample :
    extract_repo_from_url ("https://github.com/acme/widgets/pull/7200/files".toList)
        = some ("acme/widgets".toList)
    ∧ claimExactShape ("https://github.com/acme/widgets/pull/7200/files".toList)
        = false
    ∧ claimExactShape ("https://github.com/acme/widgets/pull/7200".toList) = true := by
  refine ⟨by decide, by decide, by decide⟩

end EnhanceScript

namespace EnhanceScript

/-- Python's `str.isdigit()` (ASCII): non-empty and all digits. -/
def pyIsdigit (s : List Char) : Bool := !s.isEmpty && s.all Char.isDigit

/-- The numeric value of a digit string. -/
def digitsVal (s : List Char) : Nat :=
  s.foldl (fun acc c => 10 * acc + (c.toNat - '0'.toNat)) 0

/-- The guarded original-column parse of `enhance_pr_data`:
`int(row.get(col, 0)) if row.get(col, '').isdigit() else 0` — total, because
`int` only runs on digit strings here. -/
def parseOriginal (s : String) : Int :=
  if pyIsdigit s.toList then (digitsVal s.toList : Int) else 0

/-- Python's `int(s)` restricted to strings of digits and dashes — the only
strings it receives below, where it runs after
`s.replace('-', '').isdigit()` held. It succeeds exactly on an optional
single leading `-` followed by digits; on anything else (an interior,
trailing or repeated dash) it raises `ValueError`. -/
def pyIntDashDigits (s : List Char) : Except String Int :=
  match s with
  | '-' :: rest =>
    if pyIsdigit rest then .ok (-(digitsVal rest : Int))
    else .error "invalid literal for int"
  | _ =>
    if pyIsdigit s then .ok (digitsVal s : Int)
    else .error "invalid literal for int"

/-- The "Net Lines" parse of `enhance_pr_data`:
`int(row.get('Net Lines', 0)) if row.get('Net Lines', '').replace('-', '').isdigit() else 0`.
`str.replace` removes *all* dashes before the digit test, but `int` then runs
on the original string, so a dash mixed between digits raises. -/
def parseNetLines (s : String) : Except String Int :=
  if pyIsdigit (s.toList.filter (fun c => c ≠ '-')) then pyIntDashDigits s.toList
  else .ok 0

/-- One row of the input CSV, by its column names (`row.get(col, '')`
defaults apply to the columns the script reads with `.get`). -/
structure CsvRow where
  url : String
  pr_number : String
  title : String
  state : String
  created_at : String
  merged_at : String := ""
  closed_at : String := ""
  additions : String := ""
  deletions : String := ""
  net_lines : String := ""
deriving Repr, DecidableEq

/-- An `author`/`assignee` object of the CLI JSON. -/
structure GhUser where
  login : Option String := none
deriving Repr, DecidableEq

/-- A review object of the CLI JSON. -/
structure GhReview where
  state : Option String := none
  author : Option GhUser := none
deriving Repr, DecidableEq

/-- A label object of the CLI JSON. -/
structure GhLabel where
  name : Option String := none
deriving Repr, DecidableEq

/-- A milestone object of the CLI JSON. -/
structure GhMilestone where
  title : Option String := none
deriving Repr, DecidableEq

/-- The JSON `get_pr_details` returns on success (`gh pr view --json …`);
timestamps stay the ISO strings of the JSON, raw comment/commit/file/reaction
payload entries are kept opaque. -/
structure PrDetails where
  title : Option String := none
  body : Option String := none
  author : Option GhUser := none
  state : Option String := none
  createdAt : Option String := none
  updatedAt : Option String := none
  mergedAt : Option String := none
  closedAt : Option String := none
  additions : Option Int := none
  deletions : Option Int := none
  headRefName : Option String := none
  baseRefName : Option String := none
  labels : Option (List GhLabel) := none
  milestone : Option GhMilestone := none
  assignees : Option (List GhUser) := none
  reviews : Option (List GhReview) := none
  comments : Option (List String) := none
  commits : Option (List String) := none
  files : Option (List String) := none
  reactionGroups : Option (List String) := none
deriving Repr, DecidableEq

/-- The enhanced record built on CLI success (field order of the script's
dict literal, with the review metrics added after it). -/
structure FullRec where
  repository : String
  pr_number : String
  title : String
  description : String
  author : String
  current_state : String
  original_state : String
  created_at_iso : String
  created_at : String
  updated_at_iso : String
  merged_at_iso : String
  merged_at : String
  closed_at_iso : String
  closed_at : String
  head_branch : String
  base_branch : String
  labels : List String
  milestone : String
  assignees : List String
  original_additions : Int
  original_deletions : Int
  net_lines : Int
  gh_additions : Int
  gh_deletions : Int
  reviews_count : Nat
  comments_count : Nat
  commits_count : Nat
  files_changed : Nat
  reviews : List GhReview
  comments : List String
  commits : List String
  files : List String
  reactionGroups : List String
  url : String
  time_to_merge_hours : Option ℚ
  approvals_count : Nat
  changes_requested_count : Nat
  unique_reviewers : List String
deriving Repr, DecidableEq

/-- The reduced record built when CLI enrichment fails. -/
structure ReducedRec where
  repository : String
  pr_number : String
  title : String
  original_state : String
  created_at : String
  merged_at : String
  closed_at : String
  original_additions : Int
  original_deletions : Int
  net_lines : Int
  url : String
  description : String
  enhancement_failed : Bool
deriving Repr, DecidableEq

/-- An entry of the script's `enhanced_prs` list. -/
inductive EnhancedRecord where
  | full : FullRec → EnhancedRecord
  | reduced : ReducedRec → EnhancedRecord
deriving Repr, DecidableEq

/-- The enhanced record of a row whose CLI call succeeded with `d`
(`parse_iso` stands for `datetime.fromisoformat` after the `Z` → `+00:00`
substitution; the CLI emits well-formed ISO timestamps). `nl` is the
already-parsed "Net Lines" value. -/
def build_full_record (parse_iso : String → ℚ) (row : CsvRow) (owner_repo : String)
    (d : PrDetails) (nl : Int) : FullRec :=
  let reviews := d.reviews.getD []
  { repository := owner_repo,
    pr_number := row.pr_number,
    title := d.title.getD "",
    description := d.body.getD "",
    author := match d.author with | some a => a.login.getD "" | none => "",
    current_state := d.state.getD "",
    original_state := row.state,
    created_at_iso := d.createdAt.getD "",
    created_at := row.created_at,
    updated_at_iso := d.updatedAt.getD "",
    merged_at_iso := d.mergedAt.getD "",
    merged_at := row.merged_at,
    closed_at_iso := d.closedAt.getD "",
    closed_at := row.closed_at,
    head_branch := d.headRefName.getD "",
    base_branch := d.baseRefName.getD "",
    labels := (d.labels.getD []).map (fun l => l.name.getD ""),
    milestone := match d.milestone with | some m => m.title.getD "" | none => "",
    assignees := (d.assignees.getD []).map (fun a => a.login.getD ""),
    original_additions := parseOriginal row.additions,
    original_deletions := parseOriginal row.deletions,
    net_lines := nl,
    gh_additions := d.additions.getD 0,
    gh_deletions := d.deletions.getD 0,
    reviews_count := reviews.length,
    comments_count := (d.comments.getD []).length,
    commits_count := (d.commits.getD []).length,
    files_changed := (d.files.getD []).length,
    reviews := reviews,
    comments := d.comments.getD [],
    commits := d.commits.getD [],
    files := d.files.getD [],
    reactionGroups := d.reactionGroups.getD [],
    url := row.url,
    time_to_merge_hours :=
      match d.createdAt, d.mergedAt with
      | some c, some m =>
        if c = "" ∨ m = "" then none
        else some ((parse_iso m - parse_iso c) / 3600)
      | _, _ => none,
    approvals_count := reviews.countP (fun r => r.state == some "APPROVED"),
    changes_requested_count :=
      reviews.countP (fun r => r.state == some "CHANGES_REQUESTED"),
    unique_reviewers :=
      (reviews.filterMap (fun r => r.author.map (fun a => a.login.getD ""))).dedup }

/-- The reduced record kept when enrichment fails: original CSV columns only,
`enhancement_failed = true`. `nl` is the already-parsed "Net Lines" value. -/
def build_reduced_record (row : CsvRow) (owner_repo : String) (nl : Int) : ReducedRec :=
  { repository := owner_repo,
    pr_number := row.pr_number,
    title := row.title,
    original_state := row.state,
    created_at := row.created_at,
    merged_at := row.merged_at,
    closed_at := row.closed_at,
    original_additions := parseOriginal row.additions,
    original_deletions := parseOriginal row.deletions,
    net_lines := nl,
    url := row.url,
    description := "",
    enhancement_failed := true }

/-- The row loop of `enhance_pr_data` (`github-pr-scraper/enhance_pr_data.py`),
producing the `enhanced_prs` list: rows whose URL does not parse are skipped
with a warning; otherwise `get_pr_details` (the `gh pr view` oracle, `none` =
failure) decides between the full and the reduced record. A "Net Lines" value
whose dash-stripped form is numeric but which is not itself a valid integer
literal makes `int()` raise, aborting the whole run (`Except.error`). -/
def enhance_pr_data (parse_iso : String → ℚ)
    (get_pr_details : String → String → Option PrDetails) :
    List CsvRow → Except String (List EnhancedRecord)
  | [] => .ok []
  | row :: rest =>
    match extract_repo_from_url row.url.toList with
    | none => enhance_pr_data parse_iso get_pr_details rest
    | some ownerRepoChars =>
      let owner_repo := String.mk ownerRepoChars
      match get_pr_details owner_repo row.pr_number with
      | some d =>
        match parseNetLines row.net_lines with
        | .error e => .error e
        | .ok nl =>
          match enhance_pr_data parse_iso get_pr_details rest with
          | .error e => .error e
          | .ok recs =>
            .ok (.full (build_full_record parse_iso row owner_repo d nl) :: recs)
      | none =>
        match parseNetLines row.net_lines with
        | .error e => .error e
        | .ok nl =>
          match enhance_pr_data parse_iso get_pr_details rest with
          | .error e => .error e
          | .ok recs =>
            .ok (.reduced (build_reduced_record row owner_repo nl) :: recs)

end EnhanceScript

namespace EnhanceScript

/-- C8 (amended): provided every row's "Net Lines" value parses without
raising (it is either a plain or single-leading-dash digit string, or fails
the dash-stripped digit test and defaults to 0), `enhance_pr_data` emits
exactly one record per row whose URL parses — even when the CLI call fails,
in which case the emitted record is the reduced record built from the
original CSV columns with `enhancement_failed = true`. Without that proviso
the loop can abort (see the counterexample). -/
theorem enhance_no_parseable_row_dropped (parse_iso : String → ℚ)
    (g : String → String → Option PrDetails) (rows : List CsvRow)
    (hsafe : ∀ row ∈ rows, (parseNetLines row.net_lines).isOk = true) :
    ∃ recs, enhance_pr_data parse_iso g rows = .ok recs
      ∧ recs.length
          = rows.countP (fun row => (extract_repo_from_url row.url.toList).isSome)
      ∧ ∀ row ∈ rows, ∀ oc, extract_repo_from_url row.url.toList = some oc →
          g (String.mk oc) row.pr_number = none →
          ∀ nl, parseNetLines row.net_lines = .ok nl →
          EnhancedRecord.reduced (build_reduced_record row (String.mk oc) nl) ∈ recs := by
  induction rows with
  | nil => exact ⟨[], rfl, by simp, by simp⟩
  | cons row rest ih =>
    obtain ⟨recs, hok, hlen, hmem⟩ :=
      ih (fun r hr => hsafe r (List.mem_cons_of_mem row hr))
    have hrow := hsafe row (List.mem_cons_self row rest)
    cases hx : extract_repo_from_url row.url.toList with
    | none =>
      refine ⟨recs, ?_, ?_, ?_⟩
      · simp only [enhance_pr_data, hx]
        exact hok
      · have hfalse : (extract_repo_from_url row.url.toList).isSome = false := by
          rw [hx]
          rfl
        rw [List.countP_cons, hfalse, hlen]
        simp
      · intro r hr oc hoc hgr nl hnl
        rcases List.mem_cons.mp hr with h | h
        · subst h
          rw [hx] at hoc
          exact absurd hoc (by simp)
        · exact hmem r h oc hoc hgr nl hnl
    | some oc0 =>
      obtain ⟨nl0, hnl0⟩ : ∃ nl, parseNetLines row.net_lines = .ok nl := by
        cases hpn : parseNetLines row.net_lines with
        | ok v => exact ⟨v, rfl⟩
        | error e =>
          rw [hpn] at hrow
          exact absurd hrow (by simp [Except.isOk, Except.toBool])
      cases hg : g (String.mk oc0) row.pr_number with
      | some d =>
        refine ⟨.full (build_full_record parse_iso row (String.mk oc0) d nl0) :: recs,
          ?_, ?_, ?_⟩
        · simp only [enhance_pr_data, hx, hg, hnl0, hok]
        · have htrue : (extract_repo_from_url row.url.toList).isSome = true := by
            rw [hx]
            rfl
          rw [List.length_cons, List.countP_cons, htrue, hlen]
          simp
        · intro r hr oc hoc hgr nl hnl
          rcases List.mem_cons.mp hr with h | h
          · subst h
            rw [hx] at hoc
            have hh : oc0 = oc := by
              injection hoc
            rw [← hh] at hgr
            rw [hg] at hgr
            exact absurd hgr (by simp)
          · exact List.mem_cons_of_mem _ (hmem r h oc hoc hgr nl hnl)
      | none =>
        refine ⟨.reduced (build_reduced_record row (String.mk oc0) nl0) :: recs,
          ?_, ?_, ?_⟩
        · simp only [enhance_pr_data, hx, hg, hnl0, hok]
        · have htrue : (extract_repo_from_url row.url.toList).isSome = true := by
            rw [hx]
            rfl
          rw [List.length_cons, List.countP_cons, htrue, hlen]
          simp
        · intro r hr oc hoc hgr nl hnl
          rcases List.mem_cons.mp hr with h | h
          · subst h
            rw [hx] at hoc
            have hh : oc0 = oc := by
              injection hoc
            rw [hnl0] at hnl
            have hh2 : nl0 = nl := by
              injection hnl
            rw [← hh, ← hh2]
            exact List.mem_cons_self _ _
          · exact List.mem_cons_of_mem _ (hmem r h oc hoc hgr nl hnl)

/-- Test fixture: a well-formed CSV row whose URL parses. -/
def goodRow : CsvRow :=
  { url := "https://github.com/acme/widgets/pull/7200", pr_number := "7200",
    title := "Fix rounding", state := "MERGED", created_at := "2024-01-01",
    merged_at := "2024-01-02", closed_at := "", additions := "10",
    deletions := "2", net_lines := "8" }

/-- C8 witness: one parseable row with a failing CLI oracle yields exactly
one record, the reduced one built from the row. -/
theorem enhance_no_parseable_row_dropped_witness :
    ∃ recs, enhance_pr_data (fun _ => 0) (fun _ _ => none) [goodRow] = .ok recs
      ∧ recs.length = 1
      ∧ EnhancedRecord.reduced (build_reduced_record goodRow "acme/widgets" 8)
          ∈ recs := by
  obtain ⟨recs, hok, hlen, hmem⟩ := enhance_no_parseable_row_dropped (fun _ => 0)
    (fun _ _ => none) [goodRow] (by decide)
  refine ⟨recs, hok, ?_, ?_⟩
  · rw [hlen]
    decide
  · exact hmem goodRow (List.mem_cons_self _ _) ("acme/widgets".toList) (by decide)
      rfl 8 rfl

/-- Test fixture: a row whose URL parses but whose "Net Lines" value `1-2`
passes the dash-stripped digit test while not being an integer literal. -/
def badNetLinesRow : CsvRow :=
  { url := "https://github.com/acme/widgets/pull/7201", pr_number := "7201",
    title := "T", state := "CLOSED", created_at := "2024-01-03",
    net_lines := "1-2" }

/-- C8 (counterexample): on a parseable row with "Net Lines" = "1-2" and a
failing CLI call, `int()` raises and the run aborts with no record emitted
for the row — the claim's "no such row is dropped" does not hold for it. -/
theorem enhance_bad_net_lines_aborts_counterexample :
    enhance_pr_data (fun _ => 0) (fun _ _ => none) [badNetLinesRow]
        = .error "invalid literal for int"
    ∧ (extract_repo_from_url badNetLinesRow.url.toList).isSome = true := by
  exact ⟨rfl, rfl⟩

end EnhanceScript
